import Mathlib

/-!
Verification of the session-based recording/transcription pipeline
(`app/transcribe.py`, class `TranscriptionWorker`) against its
natural-language specification.

The development shallowly embeds the parts of the program the claims
are about:

* the find/replace post-processor `_apply_replacements` (nested in
  `_transcribe_once`), including a model of Python `re.sub` with
  `re.IGNORECASE` and of `str.replace` / the `in` operator;
* the error path of `_transcribe_once`;
* the `max_session_bytes` configuration parsing in `__init__`,
  including a model of the Python `int(...)` conversion;
* the session state machine (`start`, `stop`, `_capture_loop`, the
  transcription worker loop and its teardown) as a state record plus
  total transition functions, with an operation list giving the set of
  reachable states.

Machine floats that the claims never compute with (durations,
confidences, latencies) are carried as rationals; 16-bit PCM frames
are lists of integers whose byte size is twice their length, matching
`numpy` int16 `nbytes`.
-/

namespace SpeakKeyboard

/-! ## Character and string scanning primitives

Python `re.IGNORECASE` matching of an escaped (hence literal) pattern
is modelled as a left-to-right, non-overlapping scan comparing
characters through `Char.toLower`.  Lean lowers only ASCII letters
while Python folds full Unicode; every string any claim mentions is
ASCII or Chinese (caseless), where the two agree.  Python `str.replace`
and the `in` operator are the same scan with exact equality. -/

/-- Case-insensitive character comparison (model of `re.IGNORECASE`). -/
def ciEq (a b : Char) : Bool :=
  a.toLower == b.toLower

/-- Exact character comparison (model of case-sensitive matching). -/
def exEq (a b : Char) : Bool :=
  a == b

/-- Does `cs` start with pattern `pat`, comparing characters with `eq`? -/
def startsWithBy (eq : Char → Char → Bool) : List Char → List Char → Bool
  | [], _ => true
  | _ :: _, [] => false
  | p :: ps, c :: cs => eq p c && startsWithBy eq ps cs

/-- Does `pat` occur in `cs` (at any position), comparing with `eq`?
With `exEq` this is the Python `in` substring test. -/
def containsBy (eq : Char → Char → Bool) (pat : List Char) : List Char → Bool
  | [] => pat.isEmpty
  | c :: cs => startsWithBy eq pat (c :: cs) || containsBy eq pat cs

/-- One scanning pass, fuelled so that the recursion is structural
(each step consumes at least one character, so a fuel of the text
length is always enough; exhausted fuel returns the rest unscanned).
Replaces every left-to-right, non-overlapping match of `pat` by
`dst`. -/
def replaceScanF (eq : Char → Char → Bool) (pat dst : List Char) : Nat → List Char → List Char
  | _, [] => []
  | 0, cs => cs
  | fuel + 1, c :: cs =>
    if startsWithBy eq pat (c :: cs) then
      dst ++ replaceScanF eq pat dst fuel (cs.drop (pat.length - 1))
    else
      c :: replaceScanF eq pat dst fuel cs

/-- Left-to-right, non-overlapping replacement of every match of `pat`
by `dst` in the scanned text.  With `ciEq` this models
`re.compile(re.escape(src), re.IGNORECASE).sub(dst, value)` for a
replacement containing no backslash escapes (the replacement is taken
literally); with `exEq` it models `value.replace(src, dst)`. -/
def replaceScan (eq : Char → Char → Bool) (pat dst cs : List Char) : List Char :=
  replaceScanF eq pat dst cs.length cs

/-- Fuelled match counter, same scan as `replaceScanF`. -/
def countMatchesByF (eq : Char → Char → Bool) (pat : List Char) : Nat → List Char → Nat
  | _, [] => 0
  | 0, _ => 0
  | fuel + 1, c :: cs =>
    if startsWithBy eq pat (c :: cs) then
      1 + countMatchesByF eq pat fuel (cs.drop (pat.length - 1))
    else
      countMatchesByF eq pat fuel cs

/-- Number of (left-to-right, non-overlapping) matches of `pat` in the
scanned text.  This is the per-occurrence count that the claim about
`correctionCount` speaks of; the program itself never computes it. -/
def countMatchesBy (eq : Char → Char → Bool) (pat cs : List Char) : Nat :=
  countMatchesByF eq pat cs.length cs

/-- Case-insensitive single-rule substitution on strings: the model of
`re.compile(re.escape(src), flags=re.IGNORECASE).sub(dst, value)`. -/
def substCI (src dst v : String) : String :=
  ⟨replaceScan ciEq src.data dst.data v.data⟩

/-- Case-sensitive single-rule substitution on strings: the model of
`value.replace(src, dst)`. -/
def substCS (src dst v : String) : String :=
  ⟨replaceScan exEq src.data dst.data v.data⟩

/-- Model of the Python substring test `src in value`. -/
def containsStr (src v : String) : Bool :=
  containsBy exEq src.data v.data

/-- Case-insensitive occurrence test for a pattern in a string. -/
def containsCI (src v : String) : Bool :=
  containsBy ciEq src.data v.data

/-- Case-insensitive per-occurrence match count for a pattern in a
string (spec-side notion, see `countMatchesBy`). -/
def ciMatchCount (src v : String) : Nat :=
  countMatchesBy ciEq src.data v.data

/-! ## The post-processor `_apply_replacements`

`_apply_replacements(value)` walks `replace_map` in declared order.
In case-insensitive mode it substitutes with an `IGNORECASE` regex and
increments the correction counter by one whenever the substitution
changed the current text; in case-sensitive mode it increments by one
whenever the source occurs as a substring (then replaces).  Empty
sources are skipped.  The `try`/`except` wrapper never fires in the
embedded (total) operations and is not modelled. -/

/-- Loop body of `_apply_replacements` over the ordered replacement
map: returns the rewritten text and the number of counted rules. -/
def applyRepLoop (ci : Bool) : List (String × String) → String → String × Nat
  | [], v => (v, 0)
  | (src, dst) :: rest, v =>
    if src = "" then
      applyRepLoop ci rest v
    else if ci then
      let nv := substCI src dst v
      let r := applyRepLoop ci rest nv
      (r.1, (if nv = v then 0 else 1) + r.2)
    else if containsStr src v then
      let r := applyRepLoop ci rest (substCS src dst v)
      (r.1, 1 + r.2)
    else
      applyRepLoop ci rest v

/-- `_apply_replacements` of `app/transcribe.py`: the guard
`if not value or not replace_map: return value, 0` followed by the
ordered rule loop. -/
def applyReplacements (ci : Bool) (m : List (String × String)) (v : String) : String × Nat :=
  if v = "" then (v, 0)
  else if m = [] then (v, 0)
  else applyRepLoop ci m v

/-! ## Transcription results and the error path of `_transcribe_once`

`_transcribe_once` calls the opaque engine and builds a
`TranscriptionResult`.  On engine failure (`success` falsy) it builds
an error result with empty texts, zero confidence and duration, and
the error message (defaulting to `"unknown"`); the replacement pass
runs only on the success path.  Either way the result is handed to the
`on_result` callback.  Wall-clock inference latency is an input of the
embedding. -/

/-- The `TranscriptionResult` dataclass of `app/transcribe.py`. -/
structure TranscriptionResult where
  text : String
  raw_text : String
  duration : Rat
  inference_latency : Rat
  confidence : Rat
  error : Option String := none
  corrections : Nat := 0
deriving DecidableEq

/-- The dictionary returned by `FunASRServer.transcribe_audio`, with
the keys `_transcribe_once` reads (missing keys are the `dict.get`
defaults). -/
structure AsrResult where
  success : Bool
  text : String := ""
  raw_text : String := ""
  duration : Rat := 0
  confidence : Rat := 0
  error : Option String := none
deriving DecidableEq

/-- The external post-processing configuration read by
`load_postprocess_config`: the ordered replacement map and the
case-sensitivity flag (`case_insensitive` defaults to true). -/
structure PostCfg where
  replace_map : List (String × String)
  case_insensitive : Bool := true
deriving DecidableEq

/-- `_transcribe_once` of `app/transcribe.py`, restricted to its pure
result construction: engine answer in, `TranscriptionResult` out.  The
returned value is exactly the argument the code passes to the
`on_result` callback; the embedding is a total function, matching the
code in which the failure branch raises nothing and delivers through
the same callback call as the success branch. -/
def transcribeOnce (asr : AsrResult) (post : PostCfg) (latency : Rat) : TranscriptionResult :=
  if asr.success = false then
    { text := ""
      raw_text := ""
      duration := 0
      inference_latency := latency
      confidence := 0
      error := some (asr.error.getD "unknown")
      corrections := 0 }
  else
    let ft := applyReplacements post.case_insensitive post.replace_map asr.text
    let rt := applyReplacements post.case_insensitive post.replace_map asr.raw_text
    { text := ft.1
      raw_text := rt.1
      duration := asr.duration
      inference_latency := latency
      confidence := asr.confidence
      error := none
      corrections := ft.2 }

/-! ## `max_session_bytes` configuration parsing

`__init__` reads `audio.get("max_session_bytes", 20 * 1024 * 1024)`,
converts it with `int(...)`, raises on a non-positive outcome, and on
any exception falls back to 20 MiB with a warning.  Configuration
scalars are modelled by `ConfigValue`; `pyInt` models the Python
`int(...)` conversion (floats truncate toward zero, numeric strings
parse, booleans become 0/1, `None` raises). -/

/-- A scalar configuration value as it can appear for
`audio.max_session_bytes`. -/
inductive ConfigValue where
  | intVal (n : Int)
  | floatVal (q : Rat)
  | strVal (s : String)
  | boolVal (b : Bool)
  | nullVal
deriving DecidableEq

/-- Truncation toward zero, the behaviour of Python `int()` on a
float. -/
def ratTrunc (q : Rat) : Int :=
  Int.tdiv q.num (Int.ofNat q.den)

/-- Value of a non-empty all-digit string. -/
def digitsVal (ds : List Char) : Option Nat :=
  if ds ≠ [] ∧ ds.all (fun c => c.isDigit) then
    some (ds.foldl (fun a c => a * 10 + (c.toNat - 48)) 0)
  else
    none

/-- Model of Python `int(s)` on a string: surrounding blanks are
ignored, an optional sign precedes a non-empty digit run (digit-group
underscores, unused by the claims, are not modelled). -/
def parseIntStr (s : String) : Option Int :=
  let core := ((s.data.dropWhile (fun c => c = ' ')).reverse.dropWhile (fun c => c = ' ')).reverse
  match core with
  | '-' :: ds => (digitsVal ds).map (fun n => -(n : Int))
  | '+' :: ds => (digitsVal ds).map (fun n => (n : Int))
  | ds => (digitsVal ds).map (fun n => (n : Int))

/-- Model of Python `int(raw)` over configuration scalars; `none`
means the conversion raises. -/
def pyInt : ConfigValue → Option Int
  | .intVal n => some n
  | .floatVal q => some (ratTrunc q)
  | .strVal s => parseIntStr s
  | .boolVal b => some (if b then 1 else 0)
  | .nullVal => none

/-- The fallback limit: 20 MiB. -/
def defaultMaxSessionBytes : Nat := 20 * 1024 * 1024

/-- Is the configured scalar a positive integer (the precondition the
specification claims is required to avoid the fallback)? -/
def isPosIntValue : ConfigValue → Bool
  | .intVal n => decide (0 < n)
  | _ => false

/-- The `max_session_bytes` computation of `__init__`: argument `none`
is an absent key (the `dict.get` default applies).  Returns the limit
together with whether the fallback warning was logged. -/
def maxSessionBytesOf : Option ConfigValue → Nat × Bool
  | none => (defaultMaxSessionBytes, false)
  | some v =>
    match pyInt v with
    | some n => if 0 < n then (n.toNat, false) else (defaultMaxSessionBytes, true)
    | none => (defaultMaxSessionBytes, true)

/-! ## The session state machine

The mutable state of a `TranscriptionWorker` relevant to the claims.
Audio frames are int16 sample lists; `numpy` reports `nbytes` as twice
the sample count.  The transcription queue holds `Option` blocks:
`some block` is a submitted task, `none` is the `None` shutdown
sentinel of `_stop_transcription_worker`.  The queue capacity is the
fixed `queue.Queue(maxsize=10)` of `__init__`.  Thread handles carry
no state of their own; `captureThread` records whether
`self._capture_thread` holds a live thread. -/

/-- `numpy` int16 `nbytes` of one frame. -/
def byteLen (f : List Int) : Nat := 2 * f.length

/-- Total `nbytes` of a list of frames. -/
def byteSum : List (List Int) → Nat
  | [] => 0
  | f :: fs => byteLen f + byteSum fs

/-- The fixed transcription queue capacity (`maxsize=10`). -/
def queueCapacity : Nat := 10

/-- The state of one `TranscriptionWorker` instance. -/
structure WorkerState where
  running : Bool
  recording : Bool
  stopRequested : Bool
  sessionIdCounter : Nat
  currentSessionId : Option Nat
  buffer : List (List Int)
  sessionBytes : Nat
  maxSessionBytes : Nat
  captureThread : Bool
  queue : List (Option (List Int))
  inFlight : Option (List Int)
  taskCount : Nat
  completedCount : Nat
  transcriptionRunning : Bool
deriving DecidableEq

/-- The state right after `__init__`: nothing recording, the session
id counter at 1 (`itertools.count(1)`), empty buffer and queue, both
task counters zero, and the transcription worker thread started. -/
def initState (maxBytes : Nat) : WorkerState :=
  { running := false
    recording := false
    stopRequested := false
    sessionIdCounter := 1
    currentSessionId := none
    buffer := []
    sessionBytes := 0
    maxSessionBytes := maxBytes
    captureThread := false
    queue := []
    inFlight := none
    taskCount := 0
    completedCount := 0
    transcriptionRunning := true }

/-- `TranscriptionWorker.start`: a no-op while running; otherwise
allocates the next session id, clears the buffer and byte counter,
and starts capture. -/
def startWorker (s : WorkerState) : WorkerState :=
  if s.running = true then s
  else
    { s with
      running := true
      stopRequested := false
      buffer := []
      sessionBytes := 0
      recording := true
      captureThread := true
      currentSessionId := some s.sessionIdCounter
      sessionIdCounter := s.sessionIdCounter + 1 }

/-- The observable outcome of one `stop` call: the early return, or
the stop reason together with what happened to the drained block. -/
inductive StopOutcome where
  | notRunning
  | empty (reason : String)
  | submitted (reason : String) (block : List Int)
  | queueFull (reason : String)
deriving DecidableEq

/-- `TranscriptionWorker.stop`: no-op unless running; otherwise
determines the reason from the byte counter, clears the running and
recording flags and the capture-thread handle, drains the buffer into
one contiguous block, and either skips an empty block or submits it
with `put_nowait` — appending to the queue and bumping the submitted
counter when below capacity, dropping the block otherwise.  The
`fromCaptureThread` flag only selects whether the capture thread is
joined, which has no further state effect; it is kept as an argument
because the size-limit path passes it. -/
def stopWorker (_fromCaptureThread : Bool) (s : WorkerState) : WorkerState × StopOutcome :=
  if s.running = false then (s, .notRunning)
  else
    let reason := if s.maxSessionBytes ≤ s.sessionBytes then "size_limit" else "user"
    let combined := s.buffer.flatten
    let s2 := { s with
                stopRequested := true
                running := false
                recording := false
                captureThread := false
                buffer := []
                currentSessionId := none }
    if combined = [] then (s2, .empty reason)
    else if s2.queue.length < queueCapacity then
      ({ s2 with
         queue := s2.queue ++ [some combined]
         taskCount := s2.taskCount + 1 }, .submitted reason combined)
    else (s2, .queueFull reason)

/-- The body of one `_capture_loop` frame receipt: append the frame to
the buffer and add its `nbytes` to the session byte counter. -/
def captureFrame (f : List Int) (s : WorkerState) : WorkerState :=
  { s with buffer := s.buffer ++ [f], sessionBytes := s.sessionBytes + byteLen f }

/-- `_capture_loop`, driven by the list of frames the audio queue will
yield: while the recording flag is set, receive a frame, accumulate
it, and after every frame compare the byte counter with the limit; on
breach (with no stop already requested) call
`stop(_from_capture_thread=True)` and leave the loop at once.
Returns the final state and the outcomes of the stops the loop itself
issued. -/
def captureLoop : WorkerState → List (List Int) → WorkerState × List StopOutcome
  | s, [] => (s, [])
  | s, f :: fs =>
    if s.recording = true then
      let s1 := captureFrame f s
      if s1.maxSessionBytes ≤ s1.sessionBytes ∧ s1.stopRequested = false then
        let p := stopWorker true s1
        (p.1, [p.2])
      else
        captureLoop s1 fs
    else (s, [])

/-- One dequeue by the transcription worker loop
(`_transcription_queue.get`): a task becomes the in-flight block being
transcribed; the `None` sentinel makes the loop exit.  The worker is
sequential, so a dequeue only happens with no block in flight. -/
def workerDequeue (s : WorkerState) : WorkerState :=
  match s.inFlight, s.queue with
  | none, some t :: rest => { s with queue := rest, inFlight := some t }
  | none, none :: rest => { s with queue := rest, transcriptionRunning := false }
  | _, _ => s

/-- Completion of the in-flight transcription: `_transcribe_once`
returns and `_transcription_completed_count` is incremented. -/
def workerComplete (s : WorkerState) : WorkerState :=
  match s.inFlight with
  | some _ => { s with inFlight := none, completedCount := s.completedCount + 1 }
  | none => s

/-- `_stop_transcription_worker`: clears the worker-running flag and
enqueues the `None` sentinel when the queue has room (the timed `put`
gives up on a full queue).  Counters are untouched. -/
def teardownSentinel (s : WorkerState) : WorkerState :=
  if s.queue.length < queueCapacity then
    { s with transcriptionRunning := false, queue := s.queue ++ [none] }
  else
    { s with transcriptionRunning := false }

/-- The interleaved operations the three threads can perform on the
shared state. -/
inductive WorkerOp where
  | opStart
  | opStop (fromCaptureThread : Bool)
  | opFrame (f : List Int)
  | opDequeue
  | opComplete
  | opSentinel
deriving DecidableEq

/-- Effect of one operation on the state.  A frame is only received
while the recording flag is set (the capture loop condition). -/
def applyOp (op : WorkerOp) (s : WorkerState) : WorkerState :=
  match op with
  | .opStart => startWorker s
  | .opStop b => (stopWorker b s).1
  | .opFrame f => if s.recording = true then captureFrame f s else s
  | .opDequeue => workerDequeue s
  | .opComplete => workerComplete s
  | .opSentinel => teardownSentinel s

/-- Run a sequence of operations from a state. -/
def runOps (s : WorkerState) (ops : List WorkerOp) : WorkerState :=
  ops.foldl (fun t op => applyOp op t) s

/-- A state is reachable when some operation interleaving produces it
from a freshly constructed worker. -/
def ReachableState (s : WorkerState) : Prop :=
  ∃ maxBytes ops, runOps (initState maxBytes) ops = s

/-! ## The stats surface -/

/-- The `pending_transcriptions` property: `qsize()` of the
transcription queue. -/
def pendingTranscriptions (s : WorkerState) : Nat :=
  s.queue.length

/-- The `is_transcribing` property: `not queue.empty()`. -/
def isTranscribing (s : WorkerState) : Bool :=
  !(s.queue.isEmpty)

/-! ## The counter invariant -/

/-- Number of real (non-sentinel) tasks waiting in the queue. -/
def queuedTasks (q : List (Option (List Int))) : Nat :=
  q.countP (fun o => o.isSome)

/-- The accounting invariant tying the two counters to the tasks still
waiting or in flight: every submitted task is completed, queued, or in
flight. -/
def CounterInv (s : WorkerState) : Prop :=
  s.completedCount + queuedTasks s.queue + (if s.inFlight.isSome then 1 else 0) = s.taskCount

/-! ## Concrete states used by witnesses and counterexamples -/

/-- One quick recording session: start, one frame, user stop. -/
def sessionCycle : List WorkerOp :=
  [.opStart, .opFrame [0], .opStop false]

/-- Ten quick sessions fill the ten queue slots (no worker dequeue in
between); an eleventh session then starts recording. -/
def fillOps : List WorkerOp :=
  (List.replicate 10 sessionCycle).flatten ++ [.opStart]

/-- A reachable state that is recording with the transcription queue
at capacity and a small size limit. -/
def fullQueueState : WorkerState :=
  runOps (initState 4) fillOps

/-- A reachable state that is recording with the queue at capacity, a
non-empty buffer, and a large size limit. -/
def fullQueueBufState : WorkerState :=
  runOps (initState 100) (fillOps ++ [.opFrame [1]])

/-- A reachable state with exactly one task queued and the worker
idle. -/
def oneQueuedState : WorkerState :=
  runOps (initState 100) sessionCycle

/-! ## Helper lemmas -/

theorem stringMk_data (v : String) : String.mk v.data = v := by
  cases v
  rfl

theorem replaceScanF_id_of_no_match (eq : Char → Char → Bool) (pat dst : List Char) :
    ∀ fuel cs, containsBy eq pat cs = false → replaceScanF eq pat dst fuel cs = cs := by
  intro fuel
  induction fuel with
  | zero =>
    intro cs _
    cases cs <;> rfl
  | succ n ih =>
    intro cs h
    cases cs with
    | nil => rfl
    | cons c cs =>
      rw [containsBy, Bool.or_eq_false_iff] at h
      rw [replaceScanF, if_neg (by simp [h.1]), ih cs h.2]

theorem substCI_id_of_no_match (src dst v : String) (h : containsCI src v = false) :
    substCI src dst v = v := by
  rw [substCI, replaceScan, replaceScanF_id_of_no_match ciEq src.data dst.data v.data.length v.data h,
    stringMk_data]

theorem applyRepLoop_count_le (m : List (String × String)) :
    ∀ v, (applyRepLoop true m v).2 ≤ m.length := by
  induction m with
  | nil =>
    intro v
    simp [applyRepLoop]
  | cons r rest ih =>
    intro v
    obtain ⟨src, dst⟩ := r
    rw [applyRepLoop]
    by_cases h1 : src = ""
    · rw [if_pos h1]
      exact le_trans (ih v) (by simp)
    · rw [if_neg h1, if_pos rfl]
      have := ih (substCI src dst v)
      simp only [List.length_cons]
      split <;> omega

/-! ## Claim theorems: the post-processor -/

/-- C4 (counterexample): with the single case-insensitive rule
`a → b`, the text `aa` has two occurrences of the source, yet the
reported correction count is 1, not the accumulated number of matches
the claim asserts — the code counts rules that changed the text, not
occurrences. -/
theorem c4_per_occurrence_counterexample :
    (applyReplacements true [("a", "b")] "aa").2 = 1 ∧
    ciMatchCount "a" "aa" = 2 ∧
    (applyReplacements true [("a", "b")] "aa").2 ≠ ciMatchCount "a" "aa" := by
  decide

/-- C4 (amended): in the default case-insensitive mode the reported
correction count adds one per non-empty source entry whose
substitution changed the then-current text — not one per occurrence —
so it never exceeds the number of entries, and a single-rule map
reports 1 exactly when the substitution changed the text.  Entries
are applied in the declared order of the map. -/
theorem c4_count_per_changed_rule :
    (∀ m v, (applyReplacements true m v).2 ≤ m.length) ∧
    (∀ src dst v, src ≠ "" →
      (applyReplacements true [(src, dst)] v).2 =
        if substCI src dst v = v then 0 else 1) := by
  constructor
  · intro m v
    rw [applyReplacements]
    split
    · simp
    · split
      · simp
      · exact applyRepLoop_count_le m v
  · intro src dst v hs
    rw [applyReplacements]
    split
    · rename_i hv
      have : substCI src dst v = v := by
        subst hv
        rfl
      simp [this]
    · rw [if_neg (by simp), applyRepLoop, if_neg hs, if_pos rfl]
      simp only [applyRepLoop]
      split <;> simp_all

/-- C4 (witness for the amended theorem): the single-rule
characterization applied to rule `a → b` on text `aa`, whose
substitution does change the text. -/
theorem c4_count_per_changed_rule_witness :
    (applyReplacements true [("a", "b")] "aa").2 =
      if substCI "a" "b" "aa" = "aa" then 0 else 1 :=
  c4_count_per_changed_rule.2 "a" "b" "aa" (by decide)

/-- C5: the post-processor with map `{"呃": ""}` turns `呃你好` into
`你好` with correction count 1, and leaves any text with no occurrence
of `呃` unchanged with correction count 0.  (`呃` has no case variants,
so a case-insensitive occurrence is a plain occurrence.) -/
theorem c5_filler_removal :
    applyReplacements true [("呃", "")] "呃你好" = ("你好", 1) ∧
    (∀ t : String, containsCI "呃" t = false →
      applyReplacements true [("呃", "")] t = (t, 0)) := by
  constructor
  · decide
  · intro t ht
    by_cases h0 : t = ""
    · subst h0
      decide
    · have hs : substCI "呃" "" t = t := substCI_id_of_no_match _ _ _ ht
      rw [applyReplacements, if_neg h0, if_neg (by simp), applyRepLoop,
        if_neg (by decide), if_pos rfl]
      simp [hs, applyRepLoop]

/-- C5 (witness): the no-occurrence half applied to the text `哈喽`. -/
theorem c5_filler_removal_witness :
    applyReplacements true [("呃", "")] "哈喽" = ("哈喽", 0) :=
  c5_filler_removal.2 "哈喽" (by decide)

/-- C10: for a rule whose substitution leaves the text unchanged the
two matching modes count differently: case-insensitively the rule
counts 0 (a rule only counts when its substitution changed the text),
while case-sensitively it counts 1 whenever the source occurs as a
substring, even though the text is identical afterwards.  The rule
`a → a` on `xax` exhibits the divergence. -/
theorem c10_mode_counting_divergence :
    (∀ src dst v, src ≠ "" → substCI src dst v = v →
      (applyReplacements true [(src, dst)] v).2 = 0) ∧
    (∀ src dst v, src ≠ "" → substCS src dst v = v → containsStr src v = true →
      (applyReplacements false [(src, dst)] v).2 = 1) ∧
    applyReplacements false [("a", "a")] "xax" = ("xax", 1) ∧
    applyReplacements true [("a", "a")] "xax" = ("xax", 0) := by
  refine ⟨?_, ?_, by decide, by decide⟩
  · intro src dst v hs hid
    have := c4_count_per_changed_rule.2 src dst v hs
    rw [this, if_pos hid]
  · intro src dst v hs _hid hocc
    rw [applyReplacements]
    split
    · rename_i hv
      subst hv
      rw [containsStr] at hocc
      obtain ⟨l⟩ := src
      have : l ≠ [] := by
        intro h
        exact hs (by simp [h])
      simp only [containsBy] at hocc
      rw [List.isEmpty_iff] at hocc
      · exact absurd hocc this
    · rw [if_neg (by simp), applyRepLoop, if_neg hs, if_neg (by simp), if_pos hocc]
      simp [applyRepLoop]

/-- C10 (witness): both single-rule characterizations applied to the
rule `a → a` on `xax`. -/
theorem c10_mode_counting_divergence_witness :
    (applyReplacements true [("a", "a")] "xax").2 = 0 ∧
    (applyReplacements false [("a", "a")] "xax").2 = 1 :=
  ⟨c10_mode_counting_divergence.1 "a" "a" "xax" (by decide) (by decide),
   c10_mode_counting_divergence.2.1 "a" "a" "xax" (by decide) (by decide) (by decide)⟩

/-! ## Claim theorems: error path, configuration, session start -/

/-- C7: when the engine reports failure, the result handed to the
callback (the value of `transcribeOnce`, a total function — nothing is
raised; the failure branch reaches the same `on_result` call as the
success branch) carries the engine error (defaulting to `"unknown"`),
has empty `text` and `raw_text`, correction count 0, and is
independent of the replacement configuration: the find-replace pass
was not applied. -/
theorem c7_error_result (asr : AsrResult) (post post2 : PostCfg) (lat : Rat)
    (h : asr.success = false) :
    (transcribeOnce asr post lat).error = some (asr.error.getD "unknown") ∧
    (transcribeOnce asr post lat).text = "" ∧
    (transcribeOnce asr post lat).raw_text = "" ∧
    (transcribeOnce asr post lat).corrections = 0 ∧
    transcribeOnce asr post lat = transcribeOnce asr post2 lat := by
  simp [transcribeOnce, h]

/-- C7 (witness): a failing engine answer with message `boom`, under
two different replacement configurations. -/
theorem c7_error_result_witness :
    (transcribeOnce { success := false, error := some "boom" } { replace_map := [("a", "b")] } 0).error
      = some "boom" ∧
    transcribeOnce { success := false, error := some "boom" } { replace_map := [("a", "b")] } 0 =
      transcribeOnce { success := false, error := some "boom" } { replace_map := [] } 0 :=
  ⟨(c7_error_result { success := false, error := some "boom" }
      { replace_map := [("a", "b")] } { replace_map := [] } 0 rfl).1,
   (c7_error_result { success := false, error := some "boom" }
      { replace_map := [("a", "b")] } { replace_map := [] } 0 rfl).2.2.2.2⟩

/-- C8 (counterexample): the configured value 12.5 is not a positive
integer, yet construction neither fails nor falls back — Python
`int(12.5)` is 12, which is positive, so the limit becomes 12 bytes
with no warning, not the claimed 20 MiB default with a warning. -/
theorem c8_float_counterexample :
    isPosIntValue (ConfigValue.floatVal (Rat.mk' 25 2)) = false ∧
    maxSessionBytesOf (some (ConfigValue.floatVal (Rat.mk' 25 2))) = (12, false) ∧
    maxSessionBytesOf (some (ConfigValue.floatVal (Rat.mk' 25 2))) ≠
      (defaultMaxSessionBytes, true) := by
  decide

/-- C8 (amended): construction never fails; the limit falls back to
the 20 MiB default with a warning exactly when the Python `int(...)`
conversion of the configured value raises or yields a non-positive
number.  Otherwise the converted value is used without warning — in
particular a valid positive integer is used as given, but so is the
truncation of a non-integer value that converts cleanly.  An absent
key silently uses the default. -/
theorem c8_fallback_on_nonpositive_int :
    (∀ n : Int, 0 < n →
      maxSessionBytesOf (some (ConfigValue.intVal n)) = (n.toNat, false)) ∧
    (∀ v n, pyInt v = some n → 0 < n →
      maxSessionBytesOf (some v) = (n.toNat, false)) ∧
    (∀ v n, pyInt v = some n → n ≤ 0 →
      maxSessionBytesOf (some v) = (defaultMaxSessionBytes, true)) ∧
    (∀ v, pyInt v = none →
      maxSessionBytesOf (some v) = (defaultMaxSessionBytes, true)) ∧
    maxSessionBytesOf none = (defaultMaxSessionBytes, false) := by
  refine ⟨?_, ?_, ?_, ?_, rfl⟩
  · intro n hn
    simp [maxSessionBytesOf, pyInt, hn]
  · intro v n hv hn
    simp [maxSessionBytesOf, hv, hn]
  · intro v n hv hn
    simp [maxSessionBytesOf, hv, Int.not_lt.mpr hn]
  · intro v hv
    simp [maxSessionBytesOf, hv]

/-- C8 (witness): the numeric string `"100"` converts to the positive
100 and is used, while the string `"many"` makes `int(...)` raise and
falls back with a warning. -/
theorem c8_fallback_on_nonpositive_int_witness :
    maxSessionBytesOf (some (ConfigValue.strVal "100")) = ((100 : Int).toNat, false) ∧
    maxSessionBytesOf (some (ConfigValue.strVal "many")) = (defaultMaxSessionBytes, true) :=
  ⟨c8_fallback_on_nonpositive_int.2.1 (ConfigValue.strVal "100") 100 (by decide) (by decide),
   c8_fallback_on_nonpositive_int.2.2.2.1 (ConfigValue.strVal "many") (by decide)⟩

/-- C6: `start()` while a session is recording is a complete no-op:
the state is unchanged, so in particular the current session id is
preserved, the id counter is not advanced, buffer and byte counter are
not reset, and no capture thread is started. -/
theorem c6_start_noop_while_recording (s : WorkerState) (h : s.running = true) :
    startWorker s = s ∧
    (startWorker s).currentSessionId = s.currentSessionId ∧
    (startWorker s).sessionIdCounter = s.sessionIdCounter ∧
    (startWorker s).buffer = s.buffer ∧
    (startWorker s).sessionBytes = s.sessionBytes ∧
    (startWorker s).captureThread = s.captureThread := by
  have : startWorker s = s := by
    rw [startWorker, if_pos h]
  exact ⟨this, by rw [this], by rw [this], by rw [this], by rw [this], by rw [this]⟩

/-- C6 (witness): starting twice from a fresh worker — the second
`start()` changes nothing. -/
theorem c6_start_noop_while_recording_witness :
    startWorker (startWorker (initState 4)) = startWorker (initState 4) :=
  (c6_start_noop_while_recording (startWorker (initState 4)) (by decide)).1

/-! ## Claim theorems: stop under a full queue, stats snapshot -/

/-- C1: `stop()` draining a non-empty block while the queue holds its
fixed capacity of 10 tasks returns normally (the embedded `stopWorker`
models the non-blocking `put_nowait`, whose only full-queue effect is
the caught `queue.Full`): the queue-full condition is the logged
outcome, the submitted counter is not incremented, the queue is
unchanged, and the session is torn down as in any other stop — the
drained audio is dropped. -/
theorem c1_stop_full_queue_drops (s : WorkerState) (hrun : s.running = true)
    (hbuf : s.buffer.flatten ≠ []) (hq : s.queue.length = queueCapacity) :
    (stopWorker false s).2 =
      .queueFull (if s.maxSessionBytes ≤ s.sessionBytes then "size_limit" else "user") ∧
    (stopWorker false s).1.taskCount = s.taskCount ∧
    (stopWorker false s).1.queue = s.queue ∧
    (stopWorker false s).1.buffer = [] ∧
    (stopWorker false s).1.running = false ∧
    (stopWorker false s).1.currentSessionId = none := by
  rw [stopWorker, if_neg (by simp [hrun])]
  simp only [if_neg hbuf, hq, lt_irrefl, if_neg (by omega : ¬ queueCapacity < queueCapacity)]
  simp

/-- C1 (witness): ten queued sessions and an eleventh recording with a
buffered frame; stopping drops the audio and leaves the submitted
counter at 10. -/
theorem c1_stop_full_queue_drops_witness :
    fullQueueBufState.queue.length = queueCapacity ∧
    fullQueueBufState.taskCount = 10 ∧
    (stopWorker false fullQueueBufState).1.taskCount = fullQueueBufState.taskCount ∧
    (stopWorker false fullQueueBufState).1.queue = fullQueueBufState.queue :=
  ⟨by decide, by decide,
   (c1_stop_full_queue_drops fullQueueBufState (by decide) (by decide) (by decide)).2.1,
   (c1_stop_full_queue_drops fullQueueBufState (by decide) (by decide) (by decide)).2.2.1⟩

/-- C9: the stats surface counts only queued work — `pending` is the
queue depth and `is_transcribing` holds exactly for a non-empty
queue — so once the idle worker dequeues the single queued task and is
transcribing it (it is in flight, not yet counted as completed), a
snapshot reports `pending = 0` and `is_transcribing = false`. -/
theorem c9_stats_ignore_in_flight (s : WorkerState) (t : List Int)
    (h1 : s.queue = [some t]) (h2 : s.inFlight = none) :
    pendingTranscriptions s = 1 ∧
    isTranscribing s = true ∧
    (applyOp .opDequeue s).inFlight = some t ∧
    (applyOp .opDequeue s).completedCount = s.completedCount ∧
    pendingTranscriptions (applyOp .opDequeue s) = 0 ∧
    isTranscribing (applyOp .opDequeue s) = false ∧
    (∀ u : WorkerState, pendingTranscriptions u = u.queue.length) ∧
    (∀ u : WorkerState, isTranscribing u = true ↔ u.queue ≠ []) := by
  refine ⟨?_, ?_, ?_, ?_, ?_, ?_, fun u => rfl, fun u => ?_⟩
  · rw [pendingTranscriptions, h1]
    rfl
  · rw [isTranscribing, h1]
    rfl
  · simp [applyOp, workerDequeue, h1, h2]
  · simp [applyOp, workerDequeue, h1, h2]
  · simp [applyOp, workerDequeue, h1, h2, pendingTranscriptions]
  · simp [applyOp, workerDequeue, h1, h2, isTranscribing]
  · rw [isTranscribing]
    cases hu : u.queue <;> simp

/-- C9 (witness): one completed session sits queued; after the worker
dequeues it the snapshot shows nothing pending and not transcribing,
with the completed counter still untouched. -/
theorem c9_stats_ignore_in_flight_witness :
    oneQueuedState.queue = [some [0]] ∧
    pendingTranscriptions (applyOp .opDequeue oneQueuedState) = 0 ∧
    isTranscribing (applyOp .opDequeue oneQueuedState) = false ∧
    (applyOp .opDequeue oneQueuedState).completedCount = oneQueuedState.completedCount :=
  ⟨by decide,
   (c9_stats_ignore_in_flight oneQueuedState [0] (by decide) (by decide)).2.2.2.2.1,
   (c9_stats_ignore_in_flight oneQueuedState [0] (by decide) (by decide)).2.2.2.2.2.1,
   (c9_stats_ignore_in_flight oneQueuedState [0] (by decide) (by decide)).2.2.2.1⟩

/-! ## Claim theorems: the counter invariant -/

theorem counterInv_initState (b : Nat) : CounterInv (initState b) := by
  simp [CounterInv, initState, queuedTasks]

theorem counterInv_stopWorker (b : Bool) (s : WorkerState) (h : CounterInv s) :
    CounterInv (stopWorker b s).1 := by
  unfold CounterInv queuedTasks at h ⊢
  simp only [stopWorker]
  split_ifs <;> simp_all [List.countP_append, List.countP_cons] <;> omega

theorem counterInv_applyOp (op : WorkerOp) (s : WorkerState) (h : CounterInv s) :
    CounterInv (applyOp op s) := by
  cases op with
  | opStart =>
    rw [applyOp, startWorker]
    split
    · exact h
    · simpa [CounterInv] using h
  | opStop b => exact counterInv_stopWorker b s h
  | opFrame f =>
    rw [applyOp]
    split
    · simpa [CounterInv, captureFrame] using h
    · exact h
  | opDequeue =>
    unfold CounterInv queuedTasks at h ⊢
    rw [applyOp, workerDequeue]
    split
    · rename_i hf hq
      rw [hf, hq] at h
      simp_all [List.countP_cons]
      omega
    · rename_i hf hq
      rw [hf, hq] at h
      simp_all [List.countP_cons]
    · exact h
  | opComplete =>
    unfold CounterInv at h ⊢
    rw [applyOp, workerComplete]
    split
    · rename_i t hf
      rw [hf] at h
      simp_all
      omega
    · exact h
  | opSentinel =>
    unfold CounterInv queuedTasks at h ⊢
    rw [applyOp, teardownSentinel]
    split <;> simp_all [List.countP_append, List.countP_cons]

theorem counterInv_runOps (ops : List WorkerOp) :
    ∀ s : WorkerState, CounterInv s → CounterInv (runOps s ops) := by
  induction ops with
  | nil =>
    intro s h
    exact h
  | cons op ops ih =>
    intro s h
    exact ih (applyOp op s) (counterInv_applyOp op s h)

/-- C3: in every reachable state the completed-task counter never
exceeds the submitted counter; and in any state whose transcription
queue is empty with no task in flight — in particular after a pipeline
teardown that completed with an empty queue, which requires the
sequential worker to have consumed the sentinel and thus to hold
nothing in flight — the two counters are equal. -/
theorem c3_completed_le_submitted (s : WorkerState) (h : ReachableState s) :
    s.completedCount ≤ s.taskCount ∧
    (s.queue = [] → s.inFlight = none → s.completedCount = s.taskCount) := by
  obtain ⟨b, ops, rfl⟩ := h
  have hinv := counterInv_runOps ops (initState b) (counterInv_initState b)
  unfold CounterInv at hinv
  constructor
  · omega
  · intro hq hf
    rw [hq, hf] at hinv
    simp only [queuedTasks, List.countP_nil, Option.isSome_none] at hinv
    simp at hinv
    omega

/-- C3 (witness): a full session followed by the worker draining the
queue and a teardown — the counters agree at 1/1 with the queue empty. -/
theorem c3_completed_le_submitted_witness :
    (runOps (initState 100) (sessionCycle ++ [WorkerOp.opDequeue, .opComplete])).completedCount =
      (runOps (initState 100) (sessionCycle ++ [WorkerOp.opDequeue, .opComplete])).taskCount :=
  (c3_completed_le_submitted _
      ⟨100, sessionCycle ++ [WorkerOp.opDequeue, .opComplete], rfl⟩).2
    (by decide) (by decide)

/-! ## Claim theorems: size-limit auto-stop -/

theorem stopWorker_submit (b : Bool) (s : WorkerState) (hrun : s.running = true)
    (hsz : s.maxSessionBytes ≤ s.sessionBytes)
    (hnon : s.buffer.flatten ≠ []) (hq : s.queue.length < queueCapacity) :
    stopWorker b s =
      ({ s with
          stopRequested := true
          running := false
          recording := false
          captureThread := false
          buffer := []
          currentSessionId := none
          queue := s.queue ++ [some s.buffer.flatten]
          taskCount := s.taskCount + 1 },
       .submitted "size_limit" s.buffer.flatten) := by
  rw [stopWorker, if_neg (by simp [hrun])]
  simp only [if_pos hsz, if_neg hnon, if_pos hq]

/-- C2 (amended): whenever the cumulative byte count first reaches the
limit after a received frame (`trig`, following the frames `pre` that
each left the count below the limit), the capture loop itself stops —
its definition invokes `stopWorker` with the from-capture-thread flag
set — and exits, leaving the remaining frames unconsumed; the stop's
reason is `size_limit`, and, provided the transcription queue is below
its capacity of 10 at that moment, exactly one task is submitted
containing all bytes captured up to and including the triggering
frame. -/
theorem c2_size_limit_autostop (pre : List (List Int)) :
    ∀ (s : WorkerState) (trig : List Int) (rest frames : List (List Int)),
      frames = pre ++ trig :: rest →
      s.running = true → s.recording = true → s.stopRequested = false →
      s.queue.length < queueCapacity →
      (∀ j, j ≤ pre.length → s.sessionBytes + byteSum (pre.take j) < s.maxSessionBytes) →
      s.maxSessionBytes ≤ s.sessionBytes + byteSum pre + byteLen trig →
      (s.buffer ++ pre ++ [trig]).flatten ≠ [] →
      (captureLoop s frames).2 =
        [StopOutcome.submitted "size_limit" ((s.buffer ++ pre ++ [trig]).flatten)] ∧
      (captureLoop s frames).1.queue =
        s.queue ++ [some ((s.buffer ++ pre ++ [trig]).flatten)] ∧
      (captureLoop s frames).1.taskCount = s.taskCount + 1 ∧
      (captureLoop s frames).1.recording = false ∧
      (captureLoop s frames).1.running = false ∧
      (captureLoop s frames).1.stopRequested = true := by
  induction pre with
  | nil =>
    intro s trig rest frames hf hrun hrec hreq hq hbelow htrig hnon
    subst hf
    have hnon1 : (captureFrame trig s).buffer.flatten ≠ [] := by
      simpa [captureFrame] using hnon
    have hsz1 : (captureFrame trig s).maxSessionBytes ≤ (captureFrame trig s).sessionBytes := by
      simp only [captureFrame]
      simpa [byteSum] using htrig
    have hstop := stopWorker_submit true (captureFrame trig s)
      (by simpa [captureFrame] using hrun) hsz1 hnon1
      (by simpa [captureFrame] using hq)
    simp only [List.nil_append, captureLoop, if_pos hrec,
      if_pos (And.intro hsz1 (show (captureFrame trig s).stopRequested = false by
        simpa [captureFrame] using hreq))]
    rw [hstop]
    simp [captureFrame]
  | cons f pre' ih =>
    intro s trig rest frames hf hrun hrec hreq hq hbelow htrig hnon
    subst hf
    have hlt : (captureFrame f s).sessionBytes < (captureFrame f s).maxSessionBytes := by
      have h1 := hbelow 1 (by simp)
      simp only [List.take_succ_cons, List.take_zero, byteSum, captureFrame] at h1 ⊢
      omega
    have hcondF : ¬((captureFrame f s).maxSessionBytes ≤ (captureFrame f s).sessionBytes ∧
        (captureFrame f s).stopRequested = false) := by
      intro hc
      exact absurd hc.1 (not_le.mpr hlt)
    have hres := ih (captureFrame f s) trig rest (pre' ++ trig :: rest) rfl
      (by simpa [captureFrame] using hrun)
      (by simpa [captureFrame] using hrec)
      (by simpa [captureFrame] using hreq)
      (by simpa [captureFrame] using hq)
      (by
        intro j hj
        have h2 := hbelow (j + 1) (by simpa using Nat.succ_le_succ hj)
        simp only [List.take_succ_cons, byteSum, captureFrame] at h2 ⊢
        omega)
      (by
        simp only [byteSum, captureFrame] at htrig ⊢
        omega)
      (by simpa [captureFrame, List.append_assoc] using hnon)
    rw [List.cons_append, captureLoop]
    simp only [if_pos hrec, if_neg hcondF]
    simpa [captureFrame, List.append_assoc] using hres

/-- C2 (witness for the amended theorem): limit 4 bytes, three
one-sample frames; the second frame trips the limit, one task with
both captured samples is submitted and the third frame is never
consumed. -/
theorem c2_size_limit_autostop_witness :
    (captureLoop (startWorker (initState 4)) [[1], [2], [3]]).2 =
      [StopOutcome.submitted "size_limit"
        (((startWorker (initState 4)).buffer ++ [[1]] ++ [[2]]).flatten)] ∧
    (captureLoop (startWorker (initState 4)) [[1], [2], [3]]).1.taskCount =
      (startWorker (initState 4)).taskCount + 1 :=
  ⟨(c2_size_limit_autostop [[1]] (startWorker (initState 4)) [2] [[3]] [[1], [2], [3]]
      rfl (by decide) (by decide) (by decide) (by decide)
      (by
        intro j hj
        match j, hj with
        | 0, _ => decide
        | 1, _ => decide)
      (by decide) (by decide)).1,
   (c2_size_limit_autostop [[1]] (startWorker (initState 4)) [2] [[3]] [[1], [2], [3]]
      rfl (by decide) (by decide) (by decide) (by decide)
      (by
        intro j hj
        match j, hj with
        | 0, _ => decide
        | 1, _ => decide)
      (by decide) (by decide)).2.2.1⟩

/-- C2 (counterexample to the claim as stated): a reachable state that
is recording with the transcription queue already at its capacity of
10; the size-limit breach still auto-stops with reason `size_limit`,
but no task is submitted — the session audio is dropped and the
submitted counter stays at 10 — contradicting the unconditional
"exactly one task is submitted". -/
theorem c2_size_limit_autostop_counterexample :
    fullQueueState.recording = true ∧
    fullQueueState.queue.length = queueCapacity ∧
    (captureLoop fullQueueState [[1], [2]]).2 = [StopOutcome.queueFull "size_limit"] ∧
    (captureLoop fullQueueState [[1], [2]]).1.taskCount = fullQueueState.taskCount ∧
    (captureLoop fullQueueState [[1], [2]]).1.queue = fullQueueState.queue := by
  decide

end SpeakKeyboard
